import Mathlib

/-!
Shallow embedding of the modmail bot event handlers from src/main.js.

Event handlers are modelled as pure functions from a store state and an
incoming gateway message to a new state plus a list of outbound effect
actions.  Collaborator functions that live outside src/main.js
(threads.js, queue.js, utils.js, data/blocked.js) are modelled from the
spec; each such definition carries a doc comment starting with
`Modelled from the spec:`.
-/

namespace Modmail

abbrev UserId := Nat

abbrev ChannelId := Nat

abbrev MessageId := Nat

/-- Thread status: a thread is OPEN or CLOSED (spec section 3). -/
inductive ThreadStatus
  | opened
  | closed
deriving DecidableEq, Repr

/-- Thread record (spec section 3): one conversation instance. -/
structure Thread where
  id : Nat
  user_id : UserId
  channel_id : ChannelId
  status : ThreadStatus
  created_at : Nat
deriving DecidableEq, Repr

/-- Direction of a logged or relayed message (spec section 3). -/
inductive Direction
  | toUser
  | fromUser
  | staffChat
  | system
deriving DecidableEq, Repr

/-- ChatMessage record (spec section 3): one logged or relayed message. -/
structure ChatMessage where
  id : Nat
  thread_id : Nat
  external_message_id : Option MessageId
  direction : Direction
  author_id : UserId
  content : String
  attachment_refs : List String
  deleted : Bool
  anonymous : Bool
deriving DecidableEq, Repr

/-- Store state: threads, chat messages, the blocklist, plus counters used
to mint fresh ids and a clock supplying created_at timestamps. -/
structure State where
  threads : List Thread
  chatMessages : List ChatMessage
  blocked : List UserId
  nextThreadId : Nat
  nextChannelId : Nat
  nextMessageId : Nat
  clock : Nat
deriving DecidableEq, Repr

/-- Incoming gateway message as seen by the handlers in src/main.js.
The fields mirror the msg object: author id, author.bot flag, whether the
channel is an Eris.PrivateChannel, whether the message is on the inbox
server, whether utils.isStaff(msg.member) holds, the channel id, content,
attachment list and the numeric message type (type 0 is a normal message). -/
structure Msg where
  id : MessageId
  authorId : UserId
  authorBot : Bool
  isPrivate : Bool
  onInboxServer : Bool
  isStaff : Bool
  channelId : ChannelId
  content : String
  attachments : List String
  msgType : Nat
deriving DecidableEq, Repr

/-- Outbound effect actions produced by handlers. -/
inductive Action
  | relayToUser (userId : UserId) (content : String) (attachments : List String) (anonymous : Bool)
  | deleteOriginMessage (id : MessageId)
  | saveAttachments (id : MessageId)
  | postChannelMessage (channelId : ChannelId) (content : String)
  | relayToThreadChannel (channelId : ChannelId) (content : String)
  | createMessage (channelId : ChannelId) (content : String)
  | displayLogLink (channelId : ChannelId) (threadId : Nat)
deriving DecidableEq, Repr

/-- Bot configuration fields read by src/main.js.  The field cmdMark is
config.prefix and snippetMark is config.snippetPrefix; both renamed here
because their source names are reserved words in Lean. -/
structure Config where
  cmdMark : String
  snippetMark : String
  alwaysReply : Bool
  alwaysReplyAnon : Bool
deriving DecidableEq, Repr

/-- Drop leading and trailing whitespace from a character list. -/
def trimChars (cs : List Char) : List Char :=
  ((cs.dropWhile Char.isWhitespace).reverse.dropWhile Char.isWhitespace).reverse

/-- Model of the JavaScript String.prototype.trim call used in main.js. -/
def jsTrim (s : String) : String :=
  ⟨trimChars s.data⟩

/-- Check that the first list begins with the second list. -/
def listStartsWith : List Char → List Char → Bool
  | _, [] => true
  | [], _ :: _ => false
  | a :: as, b :: bs => a == b && listStartsWith as bs

/-- Model of the JavaScript String.prototype.startsWith call in main.js. -/
def strStartsWith (s p : String) : Bool :=
  listStartsWith s.data p.data

/-- Modelled from the spec: data/blocked.js is not under src; section 4.4
describes is_blocked as an O(1) set membership check on the blocklist. -/
def isBlocked (s : State) (u : UserId) : Bool :=
  s.blocked.contains u

/-- Modelled from the spec: data/blocked.js block is an idempotent set
insert (spec section 4.4). -/
def blockUser (s : State) (u : UserId) : State :=
  if s.blocked.contains u then s else {s with blocked := s.blocked ++ [u]}

/-- Modelled from the spec: data/blocked.js unblock is an idempotent set
remove (spec section 4.4). -/
def unblockUser (s : State) (u : UserId) : State :=
  {s with blocked := s.blocked.filter (fun x => x != u)}

/-- Modelled from the spec: threads.js findOpenThreadByUserId is an exact
lookup of the OPEN thread owned by the user (spec section 4.2). -/
def findOpenThreadByUserId (s : State) (u : UserId) : Option Thread :=
  s.threads.find? (fun t => t.user_id == u && t.status == ThreadStatus.opened)

/-- Modelled from the spec: threads.js findOpenThreadByChannelId is an
exact lookup of the OPEN thread bound to the channel (spec section 4.2). -/
def findOpenThreadByChannelId (s : State) (c : ChannelId) : Option Thread :=
  s.threads.find? (fun t => t.channel_id == c && t.status == ThreadStatus.opened)

/-- Modelled from the spec: threads.js findByChannelId, called by the staff
message handler in main.js, looks a thread up by channel id with no status
restriction. -/
def findByChannelId (s : State) (c : ChannelId) : Option Thread :=
  s.threads.find? (fun t => t.channel_id == c)

/-- The OPEN threads owned by a user, used to state the at-most-one-thread
invariant. -/
def openThreadsForUser (s : State) (u : UserId) : List Thread :=
  s.threads.filter (fun t => t.user_id == u && t.status == ThreadStatus.opened)

/-- Modelled from the spec: threads.js findOrCreateThreadForUser returns
the existing OPEN thread for the user if present, otherwise creates a new
external channel and persists a new OPEN thread (spec section 4.2). -/
def findOrCreateThreadForUser (s : State) (u : UserId) : State × Thread :=
  match findOpenThreadByUserId s u with
  | some t => (s, t)
  | none =>
    let t : Thread := ⟨s.nextThreadId, u, s.nextChannelId, ThreadStatus.opened, s.clock⟩
    ({s with threads := s.threads ++ [t],
             nextThreadId := s.nextThreadId + 1,
             nextChannelId := s.nextChannelId + 1}, t)

/-- Modelled from the spec: threads.js receiveUserReply appends a
FROM_USER ChatMessage and relays the formatted content into the thread
channel (spec section 4.3, DirectMessage row). -/
def receiveUserReply (s : State) (t : Thread) (msg : Msg) : State × List Action :=
  ({s with
      chatMessages := s.chatMessages ++
        [⟨s.nextMessageId, t.id, some msg.id, Direction.fromUser, msg.authorId,
          msg.content, msg.attachments, false, false⟩],
      nextMessageId := s.nextMessageId + 1},
   [Action.relayToThreadChannel t.channel_id msg.content])

/-- Modelled from the spec: threads.js replyToUser persists a TO_USER
ChatMessage tagged with the anonymity flag and relays content plus
attachments to the user DM (spec section 4.3, StaffReplyCommand row). -/
def replyToUser (s : State) (t : Thread) (moderatorId : UserId) (text : String)
    (atts : List String) (anon : Bool) : State × List Action :=
  ({s with
      chatMessages := s.chatMessages ++
        [⟨s.nextMessageId, t.id, none, Direction.toUser, moderatorId, text, atts, false, anon⟩],
      nextMessageId := s.nextMessageId + 1},
   [Action.relayToUser t.user_id text atts anon])

/-- Modelled from the spec: threads.js saveChatMessage stores a staff
channel message as a STAFF_CHAT ChatMessage with no relay (spec section
4.3, StaffChannelMessage row). -/
def saveChatMessage (s : State) (t : Thread) (msg : Msg) : State :=
  {s with
    chatMessages := s.chatMessages ++
      [⟨s.nextMessageId, t.id, some msg.id, Direction.staffChat, msg.authorId,
        msg.content, msg.attachments, false, false⟩],
    nextMessageId := s.nextMessageId + 1}

/-- Modelled from the spec: threads.js updateChatMessage locates the
ChatMessage by external_message_id within the thread and updates its
content in place (spec section 4.3, EditEvent row). -/
def updateChatMessage (s : State) (t : Thread) (msg : Msg) : State :=
  {s with chatMessages := s.chatMessages.map (fun cm =>
      if cm.thread_id == t.id && cm.external_message_id == some msg.id then
        {cm with content := msg.content}
      else cm)}

/-- Modelled from the spec: threads.js deleteChatMessage soft-deletes the
matching ChatMessage, retaining content and setting the deleted flag
(spec section 4.3, DeleteEvent row). -/
def deleteChatMessage (s : State) (t : Thread) (mid : MessageId) : State :=
  {s with chatMessages := s.chatMessages.map (fun cm =>
      if cm.thread_id == t.id && cm.external_message_id == some mid then
        {cm with deleted := true}
      else cm)}

/-- Modelled from the spec: threads.js postSystemMessage stores a SYSTEM
ChatMessage and posts it into the thread channel (spec section 4.3,
EditEvent row).  Author id 0 stands for the bot itself. -/
def postSystemMessage (s : State) (t : Thread) (content : String) : State × List Action :=
  ({s with
      chatMessages := s.chatMessages ++
        [⟨s.nextMessageId, t.id, none, Direction.system, 0, content, [], false, false⟩],
      nextMessageId := s.nextMessageId + 1},
   [Action.postChannelMessage t.channel_id content])

/-- Modelled from the spec: threads.js getClosedThreadsByUserId returns
the closed threads of the user in creation order, ascending (spec section
4.2). -/
def getClosedThreadsByUserId (s : State) (u : UserId) : List Thread :=
  List.insertionSort (fun a b => a.created_at ≤ b.created_at)
    (s.threads.filter (fun t => t.user_id == u && t.status == ThreadStatus.closed))

/-- Order in which the logs command displays threads: main.js calls
userThreads.reverse() on the sequence from getClosedThreadsByUserId
before formatting the lines. -/
def logsDisplayOrder (s : State) (u : UserId) : List Thread :=
  (getClosedThreadsByUserId s u).reverse

/-- Accumulate a decimal value from a digit character list. -/
def digitsValAux (acc : Nat) : List Char → Nat
  | [] => acc
  | c :: cs => digitsValAux (acc * 10 + (c.toNat - 48)) cs

/-- Modelled from the spec: utils.js getUserMention is not under src; it
parses a command argument as either a bare numeric user id or a user
mention of the shape open-angle at optional-bang digits close-angle,
returning none on a malformed argument (spec section 7, ValidationError). -/
def getUserMention (str : String) : Option UserId :=
  let cs := trimChars str.data
  if !cs.isEmpty && cs.all Char.isDigit then
    some (digitsValAux 0 cs)
  else
    match cs with
    | '<' :: '@' :: rest =>
      let rest2 := match rest with
        | '!' :: r => r
        | r => r
      match rest2.getLast? with
      | some '>' =>
        let ds := rest2.dropLast
        if !ds.isEmpty && ds.all Char.isDigit then some (digitsValAux 0 ds) else none
      | _ => none
    | _ => none

/-- The system message template posted for a DM edit (main.js line 91). -/
def editSystemMessage (oldC newC : String) : String :=
  "**The user edited their message:**\n`B:` " ++ oldC ++ "\n`A:` " ++ newC

/-- A task enqueued on the serial message queue by the DM handler: the DM
it must resolve a thread for and relay (main.js lines 64 to 67). -/
structure DMTask where
  msg : Msg
deriving DecidableEq, Repr

/-- Staff thread message handler, main.js lines 31 to 49: relay the
message as a reply when alwaysReply is set, otherwise store it as staff
chat. -/
def handleStaffMessage (cfg : Config) (s : State) (msg : Msg) : State × List Action :=
  if !msg.onInboxServer then (s, [])
  else if !msg.isStaff then (s, [])
  else if msg.authorBot then (s, [])
  else if strStartsWith msg.content cfg.cmdMark || strStartsWith msg.content cfg.snippetMark then (s, [])
  else
    match findByChannelId s msg.channelId with
    | none => (s, [])
    | some t =>
      if cfg.alwaysReply then
        let attActs := if msg.attachments.length != 0 then [Action.saveAttachments msg.id] else []
        let r := replyToUser s t msg.authorId (jsTrim msg.content) msg.attachments cfg.alwaysReplyAnon
        (r.1, attActs ++ r.2 ++ [Action.deleteOriginMessage msg.id])
      else
        (saveChatMessage s t msg, [])

/-- DM handler, main.js lines 56 to 68: gate on private channel, non-bot
author, normal message type and the blocklist, then enqueue the
resolve-or-create and relay work onto the serial message queue.  The
returned option is the enqueued task, none when nothing was enqueued. -/
def handleDM (s : State) (msg : Msg) : State × Option DMTask :=
  if !msg.isPrivate then (s, none)
  else if msg.authorBot then (s, none)
  else if msg.msgType != 0 then (s, none)
  else if isBlocked s msg.authorId then (s, none)
  else (s, some ⟨msg⟩)

/-- Body of the task the DM handler enqueues, main.js lines 64 to 67:
find or create the thread for the author, then receive the user reply.
Returns the new state, the id of the resolved thread and the actions. -/
def runDMTask (s : State) (tk : DMTask) : State × Nat × List Action :=
  ((receiveUserReply (findOrCreateThreadForUser s tk.msg.authorId).1
      (findOrCreateThreadForUser s tk.msg.authorId).2 tk.msg).1,
   (findOrCreateThreadForUser s tk.msg.authorId).2.id,
   (receiveUserReply (findOrCreateThreadForUser s tk.msg.authorId).1
      (findOrCreateThreadForUser s tk.msg.authorId).2 tk.msg).2)

/-- Modelled from the spec: queue.js is not under src; section 4.1
describes the serial task queue as a single-worker FIFO executor, so a
batch of queued tasks runs one after the other, each to completion.
Returns the final state and the thread id each task resolved to. -/
def runTasks : State → List DMTask → State × List Nat
  | s, [] => (s, [])
  | s, tk :: rest =>
    ((runTasks (runDMTask s tk).1 rest).1,
     (runDMTask s tk).2.1 :: (runTasks (runDMTask s tk).1 rest).2)

/-- Result of the messageUpdate handler: a normal return with the new
state and actions, or the TypeError raised when the DM branch calls
postSystemMessage on a null thread. -/
inductive UpdateResult
  | ok (s : State) (acts : List Action)
  | nullThreadError
deriving DecidableEq, Repr

/-- Edit handler, main.js lines 75 to 103: ignore bot authors, blocked
authors and edits whose trimmed contents are unchanged; post a SYSTEM
message for a DM edit; update the stored chat message for a staff thread
edit.  The DM branch reads the open thread lookup result without a null
check, so a missing thread is a null dereference. -/
def handleMessageUpdate (s : State) (msg : Msg) (oldContent : Option String) : UpdateResult :=
  if msg.authorBot then .ok s []
  else if isBlocked s msg.authorId then .ok s []
  else
    let oldC := oldContent.getD "*Unavailable due to bot restart*"
    if jsTrim msg.content == jsTrim oldC then .ok s []
    else if msg.isPrivate then
      match findOpenThreadByUserId s msg.authorId with
      | none => .nullThreadError
      | some t =>
        let r := postSystemMessage s t (editSystemMessage oldC msg.content)
        .ok r.1 r.2
    else if msg.onInboxServer && msg.isStaff then
      match findOpenThreadByChannelId s msg.channelId with
      | none => .ok s []
      | some t => .ok (updateChatMessage s t msg) []
    else .ok s []

/-- Delete handler, main.js lines 108 to 117: for a non-bot staff message
on the inbox server whose channel is bound to an OPEN thread, soft-delete
the matching chat message; otherwise do nothing. -/
def handleMessageDelete (s : State) (msg : Msg) : State × List Action :=
  if msg.authorBot then (s, [])
  else if !msg.onInboxServer then (s, [])
  else if !msg.isStaff then (s, [])
  else
    match findOpenThreadByChannelId s msg.channelId with
    | none => (s, [])
    | some t => (deleteChatMessage s t msg.id, [])

/-- Block command handler, main.js lines 169 to 184. -/
def blockCommand (s : State) (msg : Msg) (args : List String) (thr : Option Thread) :
    State × List Action :=
  if args.length > 0 then
    match getUserMention (String.intercalate " " args) with
    | none => (s, [])
    | some uid =>
      (blockUser s uid,
       [Action.createMessage msg.channelId
          ("Blocked <@" ++ toString uid ++ "> (id " ++ toString uid ++ ") from modmail")])
  else
    match thr with
    | some t =>
      (blockUser s t.user_id,
       [Action.createMessage msg.channelId
          ("Blocked <@" ++ toString t.user_id ++ "> (id " ++ toString t.user_id ++ ") from modmail")])
    | none => (s, [])

/-- Unblock command handler, main.js lines 186 to 201. -/
def unblockCommand (s : State) (msg : Msg) (args : List String) (thr : Option Thread) :
    State × List Action :=
  if args.length > 0 then
    match getUserMention (String.intercalate " " args) with
    | none => (s, [])
    | some uid =>
      (unblockUser s uid,
       [Action.createMessage msg.channelId
          ("Unblocked <@" ++ toString uid ++ "> (id " ++ toString uid ++ ") from modmail")])
  else
    match thr with
    | some t =>
      (unblockUser s t.user_id,
       [Action.createMessage msg.channelId
          ("Unblocked <@" ++ toString t.user_id ++ "> (id " ++ toString t.user_id ++ ") from modmail")])
    | none => (s, [])

/-- Logs command handler, main.js lines 203 to 235: list the closed
threads of the target user in display order.  Date and log-url formatting
and the 15-line chunking are external collaborator concerns; the model
keeps one displayLogLink action per thread, in display order. -/
def logsCommand (s : State) (msg : Msg) (args : List String) (thr : Option Thread) :
    State × List Action :=
  if args.length > 0 then
    match getUserMention (String.intercalate " " args) with
    | none => (s, [])
    | some uid =>
      (s, (logsDisplayOrder s uid).map (fun t => Action.displayLogLink msg.channelId t.id))
  else
    match thr with
    | some t =>
      (s, (logsDisplayOrder s t.user_id).map (fun u => Action.displayLogLink msg.channelId u.id))
    | none => (s, [])

/-- Empty store used by the concrete witnesses. -/
def s0 : State := ⟨[], [], [], 1, 100, 1, 10⟩

/-- A concrete OPEN thread for user 5 bound to channel 100. -/
def thread0 : Thread := ⟨1, 5, 100, ThreadStatus.opened, 10⟩

/-- A concrete staff chat message stored in thread0 with external id 42. -/
def cmStaff : ChatMessage := ⟨1, 1, some 42, Direction.staffChat, 9, "note", [], false, false⟩

/-- Store holding thread0 and cmStaff, used by the concrete witnesses. -/
def sT : State := ⟨[thread0], [cmStaff], [], 2, 101, 2, 11⟩

/-- Store with user 5 already blocked, used by the concrete witnesses. -/
def sB : State := ⟨[], [], [5], 1, 100, 1, 10⟩

/-- A concrete DM from user 5. -/
def msgDM : Msg := ⟨7, 5, false, true, false, false, 0, "hello", [], 0⟩

/-- A concrete staff message in the channel of thread0. -/
def msgStaff : Msg := ⟨43, 9, false, false, true, true, 100, "hi there", [], 0⟩

/-- A concrete delete event for the staff message with external id 42. -/
def msgDel : Msg := ⟨42, 9, false, false, true, true, 100, "note", [], 0⟩

/-- A concrete DM edit event from user 5, new content b. -/
def msgEditDM : Msg := ⟨42, 5, false, true, false, false, 500, "b", [], 0⟩

/-- Config with alwaysReply enabled and anonymity disabled. -/
def cfg0 : Config := ⟨"!", "!!", true, false⟩

/-- The queued task carrying msgDM. -/
def tk0 : DMTask := ⟨msgDM⟩

/-- A concrete DM edit event whose new content equals the old content
after trimming. -/
def msgEditSame : Msg := ⟨42, 5, false, true, false, false, 500, "same", [], 0⟩

/-- First of two distinct concurrent first DMs from user 5 (spec section
8, scenario B). -/
def msgDMa : Msg := ⟨7, 5, false, true, false, false, 0, "a", [], 0⟩

/-- Second of two distinct concurrent first DMs from user 5 (spec section
8, scenario B): different message id and content than msgDMa. -/
def msgDMb : Msg := ⟨8, 5, false, true, false, false, 0, "b", [], 0⟩

/-- C3: an edit event whose trimmed old content equals the trimmed new
content causes no mutation and no action: the handler returns the state
unchanged with an empty action list. -/
theorem edit_trim_equal_noop (s : State) (msg : Msg) (oldContent : Option String)
    (h : jsTrim msg.content = jsTrim (oldContent.getD "*Unavailable due to bot restart*")) :
    handleMessageUpdate s msg oldContent = UpdateResult.ok s [] := by
  unfold handleMessageUpdate
  cases hb : msg.authorBot
  · cases hbl : isBlocked s msg.authorId
    · simp [hbl, h]
    · simp [hbl]
  · simp

theorem edit_trim_equal_noop_witness :
    handleMessageUpdate sT msgEditSame (some " same ") = UpdateResult.ok sT [] :=
  edit_trim_equal_noop sT msgEditSame (some " same ") (by decide)

/-- C10: every edit event from a blocked author is ignored entirely,
including staff channel edits: the blocklist check in the messageUpdate
handler runs before both branches, so the handler returns the state
unchanged with no actions. -/
theorem blocked_author_edit_ignored (s : State) (msg : Msg) (oldContent : Option String)
    (h : isBlocked s msg.authorId = true) :
    handleMessageUpdate s msg oldContent = UpdateResult.ok s [] := by
  unfold handleMessageUpdate
  cases hb : msg.authorBot
  · simp [h]
  · simp

theorem blocked_author_edit_ignored_witness :
    handleMessageUpdate sB msgEditDM (some "a") = UpdateResult.ok sB [] :=
  blocked_author_edit_ignored sB msgEditDM (some "a") (by decide)

/-- C2: on a DM edit by a non-bot, non-blocked author with changed
content and no OPEN thread, the handler dereferences the null result of
the open-thread lookup: the model evaluates to the TypeError outcome
instead of a silent no-op, so no SYSTEM message is posted but the event
is not silently ignored either. -/
theorem dm_edit_without_open_thread_null_deref :
    handleMessageUpdate s0 msgEditDM (some "a") = UpdateResult.nullThreadError := by
  decide

/-- C5: for an incoming direct message the handler leaves the state
unchanged, and it enqueues the resolve-or-create-then-relay task exactly
when the sender is not a bot, the message is a normal message of type 0,
and the sender is not blocked. -/
theorem dm_handler_enqueue_iff (s : State) (msg : Msg) (h : msg.isPrivate = true) :
    (handleDM s msg).1 = s ∧
    ((handleDM s msg).2 = some ⟨msg⟩ ↔
      (msg.authorBot = false ∧ msg.msgType = 0 ∧ isBlocked s msg.authorId = false)) := by
  unfold handleDM
  cases hb : msg.authorBot
  · by_cases hm : msg.msgType = 0
    · cases hbl : isBlocked s msg.authorId
      · simp [h, hm, hbl]
      · simp [h, hm, hbl]
    · simp [h, hm]
  · simp [h]

theorem dm_handler_enqueue_iff_witness :
    (handleDM s0 msgDM).1 = s0 ∧
    ((handleDM s0 msgDM).2 = some ⟨msgDM⟩ ↔
      (msgDM.authorBot = false ∧ msgDM.msgType = 0 ∧ isBlocked s0 msgDM.authorId = false)) :=
  dm_handler_enqueue_iff s0 msgDM rfl

/-- C8: invoking block, unblock or logs with a non-empty argument list
that does not parse as a user mention or id returns silently: the state
is unchanged and no confirmation message action is produced. -/
theorem malformed_user_arg_silent (s : State) (msg : Msg) (args : List String) (thr : Option Thread)
    (hne : args ≠ []) (hm : getUserMention (String.intercalate " " args) = none) :
    blockCommand s msg args thr = (s, []) ∧
    unblockCommand s msg args thr = (s, []) ∧
    logsCommand s msg args thr = (s, []) := by
  have hl : 0 < args.length := by
    cases args with
    | nil => exact absurd rfl hne
    | cons a l => simp
  unfold blockCommand unblockCommand logsCommand
  simp [hl, hm]

theorem malformed_user_arg_silent_witness :
    blockCommand sT msgStaff ["abc"] none = (sT, []) ∧
    unblockCommand sT msgStaff ["abc"] none = (sT, []) ∧
    logsCommand sT msgStaff ["abc"] none = (sT, []) :=
  malformed_user_arg_silent sT msgStaff ["abc"] none (by decide) (by decide)

/-- C4: a non-command, non-bot staff message in a channel bound to an
OPEN thread is relayed to the user DM as a TO_USER reply with anonymity
taken from alwaysReplyAnon and the origin message deleted when the
alwaysReply config is set; otherwise it is stored as STAFF_CHAT with no
relay action. -/
theorem staff_thread_message_relay_or_store (cfg : Config) (s : State) (msg : Msg) (t : Thread)
    (hin : msg.onInboxServer = true) (hst : msg.isStaff = true) (hb : msg.authorBot = false)
    (hc1 : strStartsWith msg.content cfg.cmdMark = false)
    (hc2 : strStartsWith msg.content cfg.snippetMark = false)
    (hf : findByChannelId s msg.channelId = some t)
    (_hopen : t.status = ThreadStatus.opened) :
    (cfg.alwaysReply = true →
      handleStaffMessage cfg s msg =
        ({s with
            chatMessages := s.chatMessages ++
              [⟨s.nextMessageId, t.id, none, Direction.toUser, msg.authorId,
                jsTrim msg.content, msg.attachments, false, cfg.alwaysReplyAnon⟩],
            nextMessageId := s.nextMessageId + 1},
         (if msg.attachments.length != 0 then [Action.saveAttachments msg.id] else []) ++
           [Action.relayToUser t.user_id (jsTrim msg.content) msg.attachments cfg.alwaysReplyAnon,
            Action.deleteOriginMessage msg.id])) ∧
    (cfg.alwaysReply = false →
      handleStaffMessage cfg s msg =
        ({s with
            chatMessages := s.chatMessages ++
              [⟨s.nextMessageId, t.id, some msg.id, Direction.staffChat, msg.authorId,
                msg.content, msg.attachments, false, false⟩],
            nextMessageId := s.nextMessageId + 1}, [])) := by
  unfold handleStaffMessage replyToUser saveChatMessage
  simp only [hin, hst, hb, hc1, hc2, hf]
  constructor <;> intro ha <;> simp [ha]

theorem staff_thread_message_relay_or_store_witness :
    handleStaffMessage cfg0 sT msgStaff =
      ({sT with
          chatMessages := sT.chatMessages ++
            [⟨sT.nextMessageId, thread0.id, none, Direction.toUser, msgStaff.authorId,
              jsTrim msgStaff.content, msgStaff.attachments, false, cfg0.alwaysReplyAnon⟩],
          nextMessageId := sT.nextMessageId + 1},
       [Action.relayToUser thread0.user_id (jsTrim msgStaff.content) msgStaff.attachments
          cfg0.alwaysReplyAnon,
        Action.deleteOriginMessage msgStaff.id]) :=
  (staff_thread_message_relay_or_store cfg0 sT msgStaff thread0 rfl rfl rfl (by decide) (by decide)
    (by decide) rfl).1 rfl

/-- C6: a delete event for a non-bot staff message on the inbox server in
a channel bound to an OPEN thread soft-deletes the matching ChatMessage,
setting its deleted flag while retaining its content, and relays nothing
to the user; a delete event failing any of those preconditions causes no
action and no state change. -/
theorem staff_delete_soft_delete (s : State) (msg : Msg) :
    (∀ t : Thread, msg.authorBot = false → msg.onInboxServer = true → msg.isStaff = true →
      findOpenThreadByChannelId s msg.channelId = some t →
      handleMessageDelete s msg =
        ({s with chatMessages := s.chatMessages.map (fun cm =>
            if cm.thread_id == t.id && cm.external_message_id == some msg.id then
              {cm with deleted := true}
            else cm)}, [])) ∧
    ((msg.authorBot = true ∨ msg.onInboxServer = false ∨ msg.isStaff = false ∨
        findOpenThreadByChannelId s msg.channelId = none) →
      handleMessageDelete s msg = (s, [])) := by
  constructor
  · intro t hb hin hst hf
    unfold handleMessageDelete deleteChatMessage
    simp [hb, hin, hst, hf]
  · intro h
    unfold handleMessageDelete
    rcases h with h | h | h | h
    · simp [h]
    · cases hb : msg.authorBot <;> simp [hb, h]
    · cases hb : msg.authorBot <;> cases hin : msg.onInboxServer <;> simp [hb, hin, h]
    · cases hb : msg.authorBot <;> cases hin : msg.onInboxServer <;>
        cases hst : msg.isStaff <;> simp [hb, hin, hst, h]

theorem staff_delete_soft_delete_witness :
    handleMessageDelete sT msgDel =
      ({sT with chatMessages := sT.chatMessages.map (fun cm =>
          if cm.thread_id == thread0.id && cm.external_message_id == some msgDel.id then
            {cm with deleted := true}
          else cm)}, []) :=
  (staff_delete_soft_delete sT msgDel).1 thread0 rfl rfl rfl (by decide)

/-- C9: the queued DM task never consults the blocklist: its result is
independent of the blocked list in the state, so a DM enqueued while its
sender passed the gate is still processed to completion, appending its
FROM_USER chat message, even when the sender is blocked in the state at
execution time. -/
theorem queued_dm_task_skips_blocklist (s : State) (tk : DMTask)
    (_h : isBlocked s tk.msg.authorId = true) :
    (runDMTask s tk).1.chatMessages.length = s.chatMessages.length + 1 ∧
    (∀ b : List UserId, runDMTask {s with blocked := b} tk =
      ({(runDMTask s tk).1 with blocked := b}, (runDMTask s tk).2)) := by
  cases hf : findOpenThreadByUserId s tk.msg.authorId with
  | none =>
    constructor
    · simp [runDMTask, findOrCreateThreadForUser, hf, receiveUserReply]
    · intro b
      have hf2 : findOpenThreadByUserId {s with blocked := b} tk.msg.authorId = none := hf
      simp [runDMTask, findOrCreateThreadForUser, hf, hf2, receiveUserReply]
  | some t =>
    constructor
    · simp [runDMTask, findOrCreateThreadForUser, hf, receiveUserReply]
    · intro b
      have hf2 : findOpenThreadByUserId {s with blocked := b} tk.msg.authorId = some t := hf
      simp [runDMTask, findOrCreateThreadForUser, hf, hf2, receiveUserReply]

/-- Helper: once an OPEN thread for the user exists, every further
queued task from that user resolves to it and leaves the thread list
unchanged, whatever the individual messages are. -/
theorem runTasks_of_open (u : UserId) (t : Thread) :
    ∀ (tks : List DMTask) (s : State), (∀ tk ∈ tks, tk.msg.authorId = u) →
      findOpenThreadByUserId s u = some t →
      (runTasks s tks).1.threads = s.threads ∧
      (runTasks s tks).2 = List.replicate tks.length t.id := by
  intro tks
  induction tks with
  | nil => intro s _ _; simp [runTasks]
  | cons tk rest ih =>
    intro s hall h
    have htk : tk.msg.authorId = u := hall tk (by simp)
    have hfind : findOpenThreadByUserId s tk.msg.authorId = some t := by rw [htk]; exact h
    have step : runDMTask s tk =
        ({s with
            chatMessages := s.chatMessages ++
              [⟨s.nextMessageId, t.id, some tk.msg.id, Direction.fromUser, tk.msg.authorId,
                tk.msg.content, tk.msg.attachments, false, false⟩],
            nextMessageId := s.nextMessageId + 1},
         t.id, [Action.relayToThreadChannel t.channel_id tk.msg.content]) := by
      simp [runDMTask, findOrCreateThreadForUser, hfind, receiveUserReply]
    have ih2 := ih {s with
        chatMessages := s.chatMessages ++
          [⟨s.nextMessageId, t.id, some tk.msg.id, Direction.fromUser, tk.msg.authorId,
            tk.msg.content, tk.msg.attachments, false, false⟩],
        nextMessageId := s.nextMessageId + 1}
      (fun x hx => hall x (List.mem_cons_of_mem tk hx)) h
    constructor
    · simp only [runTasks, step]
      exact ih2.1
    · simp only [runTasks, step]
      rw [ih2.2]
      simp [List.replicate_succ]

/-- C1: for any non-empty batch of concurrent first-DM events from the
same user, run one after the other by the serial task queue, exactly one
OPEN thread for that user exists afterwards and every one of the N tasks
resolves to its id.  The messages may differ in id, content and
attachments; only the author must coincide. -/
theorem dm_first_messages_create_single_thread (s : State) (u : UserId) (tks : List DMTask)
    (hall : ∀ tk ∈ tks, tk.msg.authorId = u)
    (h0 : openThreadsForUser s u = []) (hn : tks ≠ []) :
    openThreadsForUser (runTasks s tks).1 u =
      [⟨s.nextThreadId, u, s.nextChannelId, ThreadStatus.opened, s.clock⟩] ∧
    (runTasks s tks).2 = List.replicate tks.length s.nextThreadId := by
  cases tks with
  | nil => exact absurd rfl hn
  | cons tk rest =>
    have htk : tk.msg.authorId = u := hall tk (by simp)
    subst htk
    have hfind : findOpenThreadByUserId s tk.msg.authorId = none := by
      unfold findOpenThreadByUserId
      apply List.find?_eq_none.mpr
      intro x hx
      unfold openThreadsForUser at h0
      exact List.filter_eq_nil_iff.mp h0 x hx
    have step : runDMTask s tk =
        ({s with
            threads := s.threads ++
              [⟨s.nextThreadId, tk.msg.authorId, s.nextChannelId, ThreadStatus.opened, s.clock⟩],
            chatMessages := s.chatMessages ++
              [⟨s.nextMessageId, s.nextThreadId, some tk.msg.id, Direction.fromUser,
                tk.msg.authorId, tk.msg.content, tk.msg.attachments, false, false⟩],
            nextThreadId := s.nextThreadId + 1,
            nextChannelId := s.nextChannelId + 1,
            nextMessageId := s.nextMessageId + 1},
         s.nextThreadId, [Action.relayToThreadChannel s.nextChannelId tk.msg.content]) := by
      simp [runDMTask, findOrCreateThreadForUser, hfind, receiveUserReply]
    have hf1 : findOpenThreadByUserId
        ({s with
            threads := s.threads ++
              [⟨s.nextThreadId, tk.msg.authorId, s.nextChannelId, ThreadStatus.opened, s.clock⟩],
            chatMessages := s.chatMessages ++
              [⟨s.nextMessageId, s.nextThreadId, some tk.msg.id, Direction.fromUser,
                tk.msg.authorId, tk.msg.content, tk.msg.attachments, false, false⟩],
            nextThreadId := s.nextThreadId + 1,
            nextChannelId := s.nextChannelId + 1,
            nextMessageId := s.nextMessageId + 1}) tk.msg.authorId =
        some ⟨s.nextThreadId, tk.msg.authorId, s.nextChannelId, ThreadStatus.opened, s.clock⟩ := by
      unfold findOpenThreadByUserId at hfind ⊢
      simp only [List.find?_append, hfind, Option.none_or]
      simp [List.find?]
    have ih2 := runTasks_of_open tk.msg.authorId
      ⟨s.nextThreadId, tk.msg.authorId, s.nextChannelId, ThreadStatus.opened, s.clock⟩ rest _
      (fun x hx => hall x (List.mem_cons_of_mem tk hx)) hf1
    constructor
    · simp only [runTasks, step]
      unfold openThreadsForUser
      rw [ih2.1]
      have : ({s with
          threads := s.threads ++
            [⟨s.nextThreadId, tk.msg.authorId, s.nextChannelId, ThreadStatus.opened, s.clock⟩],
          chatMessages := s.chatMessages ++
            [⟨s.nextMessageId, s.nextThreadId, some tk.msg.id, Direction.fromUser,
              tk.msg.authorId, tk.msg.content, tk.msg.attachments, false, false⟩],
          nextThreadId := s.nextThreadId + 1,
          nextChannelId := s.nextChannelId + 1,
          nextMessageId := s.nextMessageId + 1} : State).threads =
          s.threads ++
            [⟨s.nextThreadId, tk.msg.authorId, s.nextChannelId, ThreadStatus.opened, s.clock⟩] := rfl
      rw [this, List.filter_append]
      unfold openThreadsForUser at h0
      rw [h0]
      simp
    · simp only [runTasks, step]
      rw [ih2.2]
      simp [List.replicate_succ]

theorem dm_first_messages_create_single_thread_witness :
    openThreadsForUser (runTasks s0 [⟨msgDMa⟩, ⟨msgDMb⟩]).1 5 =
      [⟨s0.nextThreadId, 5, s0.nextChannelId, ThreadStatus.opened, s0.clock⟩] ∧
    (runTasks s0 [⟨msgDMa⟩, ⟨msgDMb⟩]).2 =
      List.replicate ([⟨msgDMa⟩, ⟨msgDMb⟩] : List DMTask).length s0.nextThreadId :=
  dm_first_messages_create_single_thread s0 5 [⟨msgDMa⟩, ⟨msgDMb⟩]
    (by decide) (by decide) (by decide)

/-- C7: getClosedThreadsByUserId returns exactly the closed threads of
the user, sorted ascending by creation time, and the logs command
displays them newest first by reversing that sequence: the display order
is the reverse and is sorted descending by creation time. -/
theorem closed_threads_ascending_logs_reversed (s : State) (u : UserId) :
    List.Sorted (fun a b : Thread => a.created_at ≤ b.created_at) (getClosedThreadsByUserId s u) ∧
    (∀ t : Thread, t ∈ getClosedThreadsByUserId s u ↔
      (t ∈ s.threads ∧ t.user_id = u ∧ t.status = ThreadStatus.closed)) ∧
    logsDisplayOrder s u = (getClosedThreadsByUserId s u).reverse ∧
    List.Sorted (fun a b : Thread => b.created_at ≤ a.created_at) (logsDisplayOrder s u) := by
  haveI : IsTotal Thread (fun a b => a.created_at ≤ b.created_at) :=
    ⟨fun a b => Nat.le_total a.created_at b.created_at⟩
  haveI : IsTrans Thread (fun a b => a.created_at ≤ b.created_at) :=
    ⟨fun _ _ _ hab hbc => Nat.le_trans hab hbc⟩
  refine ⟨List.sorted_insertionSort _ _, ?_, rfl, ?_⟩
  · intro t
    unfold getClosedThreadsByUserId
    rw [List.mem_insertionSort, List.mem_filter]
    simp [and_assoc]
  · show List.Pairwise _ ((getClosedThreadsByUserId s u).reverse)
    rw [List.pairwise_reverse]
    exact List.sorted_insertionSort _ _

theorem queued_dm_task_skips_blocklist_witness :
    (runDMTask sB tk0).1.chatMessages.length = sB.chatMessages.length + 1 ∧
    (∀ b : List UserId, runDMTask {sB with blocked := b} tk0 =
      ({(runDMTask sB tk0).1 with blocked := b}, (runDMTask sB tk0).2)) :=
  queued_dm_task_skips_blocklist sB tk0 (by decide)

end Modmail
